import Mathlib

/-!
Verification of the CreditBeast Decision & Automation Engine
(`apps/api/services/lead_scoring.py`, `apps/api/services/automation.py`,
`apps/api/services/churn_prediction.py`).

The Python code is shallowly embedded: dictionaries become structures whose
fields carry the `dict.get` defaults of the source, Python floats become `ℚ`
(or `ℝ` where the code applies `math.exp`), and Python string operations are
reimplemented over `List Char` so that concrete evaluations reduce in the
kernel.  `round(x, 2)` is modelled by round-half-to-even on rationals
(`roundHalfEven2`), matching Python's rounding rule on exact values.
-/

namespace Spec2Proof

/-! ## Python string primitives -/

/-- Python `str.lower()` (ASCII case mapping, as used by the source data). -/
def pyLower (s : String) : String := ⟨s.data.map Char.toLower⟩

/-- Python `str.upper()`. -/
def pyUpper (s : String) : String := ⟨s.data.map Char.toUpper⟩

/-- Python `str.strip()`: drop leading and trailing whitespace. -/
def pyStrip (s : String) : String :=
  ⟨((s.data.dropWhile Char.isWhitespace).reverse.dropWhile Char.isWhitespace).reverse⟩

/-- Auxiliary: does the first list occur at the head of the second? -/
def headMatches : List Char → List Char → Bool
  | [], _ => true
  | _ :: _, [] => false
  | a :: as, b :: bs => a = b && headMatches as bs

/-- Python `needle in hay` on strings: substring occurrence. -/
def strContains (needle : List Char) : List Char → Bool
  | [] => headMatches needle []
  | c :: t => headMatches needle (c :: t) || strContains needle t

/-- Python `str.split(sep)` for a one-character separator. -/
def splitOnChar (c : Char) (l : List Char) : List (List Char) :=
  l.foldr
    (fun ch acc =>
      match acc with
      | [] => [[ch]]
      | cur :: rest => if ch = c then [] :: (cur :: rest) else (ch :: cur) :: rest)
    [[]]

/-- Python `round(100*x)/100` with round-half-to-even, as an integer result. -/
def roundHalfEven (y : ℚ) : ℤ :=
  if y - ⌊y⌋ < 1/2 then ⌊y⌋
  else if 1/2 < y - ⌊y⌋ then ⌊y⌋ + 1
  else if ⌊y⌋ % 2 = 0 then ⌊y⌋ else ⌊y⌋ + 1

/-- Python `round(x, 2)`: round to two decimal places, half to even. -/
def roundHalfEven2 (x : ℚ) : ℚ := (roundHalfEven (100 * x) : ℚ) / 100

/-! ## Lead scoring (`LeadScoringService`, lead_scoring.py)

A lead record `lead_data` is a dict read with `.get(field, '')`; an absent
field and the empty string are indistinguishable to the source, so fields are
plain strings defaulting to `""`.  `concern_level` stands for
`lead_data.get('custom_fields', {}).get('concern_level', '')`. -/

structure LeadData where
  email : String := ""
  phone : String := ""
  first_name : String := ""
  last_name : String := ""
  street_address : String := ""
  city : String := ""
  state : String := ""
  zip_code : String := ""
  utm_source : String := ""
  lead_source : String := ""
  concern_level : String := ""
deriving DecidableEq

/-- One entry of a profile's `criteria` list; defaults are the source's
`criteria.get(...)` defaults (`positive_values`/`negative_values` default to
`[]`, `threshold_score` to `0`). `criteria_type` and `weight` are mandatory
keys in the source. -/
structure Criterion where
  criteria_type : String
  weight : ℚ
  positive_values : List String := []
  negative_values : List String := []
  threshold_score : ℚ := 0
deriving DecidableEq

/-- A scoring profile; threshold defaults are the `profile.get` defaults used
by `_determine_qualification_status`. -/
structure Profile where
  criteria : List Criterion := []
  auto_qualify_threshold : ℚ := 7
  require_review_threshold : ℚ := 5
  disqualify_threshold : ℚ := 3
deriving DecidableEq

/-- Result of `_score_criteria` for one criterion. -/
structure CritScore where
  score : ℚ
  raw_score : ℚ
  weight : ℚ
  reasoning : List String
deriving DecidableEq

/-- `_score_email_domain`. -/
def score_email_domain (lead : LeadData) (positive_domains negative_domains : List String) :
    ℚ × List String :=
  let email := pyLower lead.email
  if email = "" then (0, ["No email provided"])
  else
    let domain : String :=
      if email.data.contains '@' then ⟨(splitOnChar '@' email.data).getD 1 []⟩ else ""
    if domain = "" then (0, ["Invalid email format"])
    else if positive_domains.contains domain then
      (1, ["Email domain " ++ domain.data.asString ++ " is in positive list"])
    else if negative_domains.contains domain then
      (0, ["Email domain " ++ domain.data.asString ++ " is in negative list"])
    else (1/2, ["Email domain " ++ domain.data.asString ++ " is not in known lists"])

/-- `_score_phone_format`. -/
def score_phone_format (lead : LeadData) : ℚ × List String :=
  if lead.phone = "" then (0, ["No phone number provided"])
  else
    let digits := lead.phone.data.filter Char.isDigit
    if digits.length = 10 then (1, ["Valid 10-digit phone number"])
    else if digits.length = 11 && digits.headD ' ' = '1' then
      (9/10, ["Valid 11-digit phone number with country code"])
    else if 10 ≤ digits.length then (7/10, ["Phone number format needs verification"])
    else (0, ["Invalid phone number format"])

/-- `_score_address_validity`. -/
def score_address_validity (lead : LeadData) : ℚ × List String :=
  let fields := [lead.street_address, lead.city, lead.state, lead.zip_code]
  let provided : ℕ := fields.countP (fun v => pyStrip v ≠ "")
  let completeness : ℚ := (provided : ℚ) / 4
  let reason :=
    if completeness = 1 then "Complete address provided"
    else if 3/4 ≤ completeness then "Nearly complete address provided"
    else if 1/2 ≤ completeness then "Partial address provided"
    else "Incomplete address provided"
  (completeness, [reason])

/-- `_score_utm_source`. -/
def score_utm_source (lead : LeadData) (positive_sources negative_sources : List String) :
    ℚ × List String :=
  let utm := pyLower lead.utm_source
  if utm = "" then (0, ["No UTM source provided"])
  else if positive_sources.contains utm then
    (1, ["UTM source " ++ utm.data.asString ++ " is high quality"])
  else if negative_sources.contains utm then
    (0, ["UTM source " ++ utm.data.asString ++ " is low quality"])
  else (1/2, ["UTM source " ++ utm.data.asString ++ " is moderate quality"])

/-- `_score_lead_source`. -/
def score_lead_source (lead : LeadData) (positive_sources negative_sources : List String) :
    ℚ × List String :=
  let src := pyLower lead.lead_source
  if src = "" then (0, ["No lead source specified"])
  else if positive_sources.contains src then
    (1, ["Lead source " ++ src.data.asString ++ " is high quality"])
  else if negative_sources.contains src then
    (0, ["Lead source " ++ src.data.asString ++ " is low quality"])
  else (1/2, ["Lead source " ++ src.data.asString ++ " is moderate quality"])

/-- `_score_name_completeness`. -/
def score_name_completeness (lead : LeadData) : ℚ × List String :=
  let first := pyStrip lead.first_name
  let last := pyStrip lead.last_name
  if first ≠ "" && last ≠ "" then (1, ["Complete name provided"])
  else if first ≠ "" || last ≠ "" then (1/2, ["Partial name provided"])
  else (0, ["No name provided"])

/-- `_score_credit_concern_level`; `concern_level` is
`custom_fields.get('concern_level', '').lower()`. -/
def score_credit_concern_level (lead : LeadData) : ℚ × List String :=
  let concern := pyLower lead.concern_level
  let urgency := ["urgent", "asap", "immediately", "soon"]
  if urgency.any (fun ind => strContains ind.data concern.data) then
    (8/10, ["High concern level indicated"])
  else if ["low", "minor", "curious"].contains concern then
    (3/10, ["Low concern level indicated"])
  else (1/2, [])

/-- `_score_demographic_fit`. -/
def score_demographic_fit (lead : LeadData) : ℚ × List String :=
  let state := pyUpper lead.state
  let high_demand := ["CA", "TX", "FL", "NY", "PA", "IL", "OH", "GA", "NC", "MI"]
  if high_demand.contains state then
    (8/10, ["State " ++ state.data.asString ++ " has high credit repair demand"])
  else if state ≠ "" then
    (6/10, ["State " ++ state.data.asString ++ " has moderate credit repair demand"])
  else (1/2, ["No state information provided"])

/-- `_score_criteria`: dispatch on the criterion type, then apply the weight. -/
def score_criteria (lead : LeadData) (c : Criterion) : CritScore :=
  let sr : ℚ × List String :=
    if c.criteria_type = "email_domain" then
      score_email_domain lead c.positive_values c.negative_values
    else if c.criteria_type = "phone_format" then score_phone_format lead
    else if c.criteria_type = "address_validity" then score_address_validity lead
    else if c.criteria_type = "utm_source" then
      score_utm_source lead c.positive_values c.negative_values
    else if c.criteria_type = "lead_source" then
      score_lead_source lead c.positive_values c.negative_values
    else if c.criteria_type = "name_completeness" then score_name_completeness lead
    else if c.criteria_type = "credit_concern_level" then score_credit_concern_level lead
    else if c.criteria_type = "demographic_fit" then score_demographic_fit lead
    else (c.threshold_score,
      ["Unknown criteria type: " ++ c.criteria_type.data.asString ++ ", using threshold score"])
  { score := sr.1 * c.weight, raw_score := sr.1, weight := c.weight, reasoning := sr.2 }

/-- The eight criterion types handled by `_score_criteria`'s dispatch. -/
def knownCriteriaTypes : List String :=
  ["email_domain", "phone_format", "address_validity", "utm_source", "lead_source",
   "name_completeness", "credit_concern_level", "demographic_fit"]

/-- Python dict insertion (`d[k] = v`): replace in place if the key exists,
otherwise append.  Models the `criteria_scores` dict of
`_calculate_lead_score`. -/
def dictInsert (l : List (String × CritScore)) (k : String) (v : CritScore) :
    List (String × CritScore) :=
  if l.any (fun p => p.1 = k) then l.map (fun p => if p.1 = k then (k, v) else p)
  else l ++ [(k, v)]

/-- The `criteria_scores` dict built by the loop of `_calculate_lead_score`. -/
def criteriaScores (lead : LeadData) (cs : List Criterion) : List (String × CritScore) :=
  cs.foldl (fun acc c => dictInsert acc c.criteria_type (score_criteria lead c)) []

/-- `total_score` accumulated by the loop of `_calculate_lead_score`. -/
def totalRawScore (lead : LeadData) (cs : List Criterion) : ℚ :=
  (cs.map (fun c => (score_criteria lead c).score)).sum

/-- `max_possible_score` accumulated by the loop of `_calculate_lead_score`. -/
def maxPossibleScore (cs : List Criterion) : ℚ := (cs.map Criterion.weight).sum

/-- The ten "important fields" of `_calculate_confidence`. -/
def importantFieldValues (lead : LeadData) : List String :=
  [lead.email, lead.phone, lead.first_name, lead.last_name, lead.street_address,
   lead.city, lead.state, lead.zip_code, lead.utm_source, lead.lead_source]

/-- `_calculate_confidence`: average of data completeness and the fraction of
criteria with a positive raw score, clamped to `[0.1, 1.0]`. -/
def calculate_confidence (lead : LeadData) (scores : List (String × CritScore)) : ℚ :=
  let data_completeness : ℚ := ((importantFieldValues lead).countP (fun v => pyStrip v ≠ "") : ℚ)
  let completeness_ratio := data_completeness / 10
  let criteria_count : ℚ := ((scores.filter (fun p => 0 < p.2.raw_score)).length : ℚ)
  let criteria_ratio := criteria_count / (max scores.length 1 : ℕ)
  max (1/10) (min 1 ((completeness_ratio + criteria_ratio) / 2))

/-- Result of `_calculate_lead_score`. -/
structure ScoreOutcome where
  total_score : ℚ
  raw_score : ℚ
  max_possible_score : ℚ
  criteria_scores : List (String × CritScore)
  confidence : ℚ
  reasoning : List String
deriving DecidableEq

/-- `_calculate_lead_score`: weighted sum, normalisation to the 0–10 scale
(0 when no weight), two-decimal rounding, and confidence. -/
def calculate_lead_score (lead : LeadData) (profile : Profile) : ScoreOutcome :=
  let cs := profile.criteria
  let total := totalRawScore lead cs
  let maxp := maxPossibleScore cs
  let normalized : ℚ := if 0 < maxp then total / maxp * 10 else 0
  let scores := criteriaScores lead cs
  { total_score := roundHalfEven2 normalized
    raw_score := total
    max_possible_score := maxp
    criteria_scores := scores
    confidence := calculate_confidence lead scores
    reasoning := (cs.map (fun c => (score_criteria lead c).reasoning)).flatten }

/-- `_determine_qualification_status`: confidence-adjusted thresholds, then
the qualify / review / disqualify / manual-review cascade. -/
def determine_qualification_status (score confidence : ℚ) (p : Profile) : String :=
  let auto_qualify := if confidence < 1/2 then p.auto_qualify_threshold - 1
    else p.auto_qualify_threshold
  let require_review := if confidence < 1/2 then p.require_review_threshold - 1/2
    else p.require_review_threshold
  let disqualify := p.disqualify_threshold
  if auto_qualify ≤ score then "auto_qualified"
  else if require_review ≤ score then "review_required"
  else if score ≤ disqualify then "auto_disqualified"
  else "manual_review"

/-! ## Churn prediction (`ChurnPredictionService`, churn_prediction.py)

`_calculate_churn_probability` reads only `weight` and `impact_score` from
each risk factor (with `.get` defaults `1.0` and `0.5`); the code applies
`math.exp`, so this part of the embedding lives in `ℝ`. -/

structure RiskFactor where
  weight : ℝ := 1
  impact_score : ℝ := 1/2

/-- `total_weight` accumulated by `_calculate_churn_probability`. -/
def totalWeight (factors : List RiskFactor) : ℝ := (factors.map RiskFactor.weight).sum

/-- `total_weighted_risk` accumulated by `_calculate_churn_probability`. -/
def totalWeightedRisk (factors : List RiskFactor) : ℝ :=
  (factors.map (fun f => f.impact_score * f.weight)).sum

/-- `normalized_risk = total_weighted_risk / total_weight`. -/
noncomputable def normalizedRisk (factors : List RiskFactor) : ℝ :=
  totalWeightedRisk factors / totalWeight factors

open Classical in
/-- `_calculate_churn_probability`: 0.5 for no factors or zero total weight,
otherwise a logistic transform of the normalised risk, clamped to `[0,1]`. -/
noncomputable def calculate_churn_probability (factors : List RiskFactor) : ℝ :=
  if factors = [] then 1/2
  else if totalWeight factors = 0 then 1/2
  else max 0 (min 1 (1 / (1 + Real.exp (-6 * (normalizedRisk factors - 1/2)))))

/-- `_determine_risk_level`, over the rationals (the cut-point comparisons of
the source applied to a probability value). -/
def determine_risk_level (churn_probability : ℚ) : String :=
  if 7/10 ≤ churn_probability then "critical"
  else if 1/2 ≤ churn_probability then "high"
  else if 3/10 ≤ churn_probability then "medium"
  else "low"

/-- Order of the risk tiers emitted by `_determine_risk_level`. -/
def riskLevelRank (level : String) : ℕ :=
  if level = "low" then 0
  else if level = "medium" then 1
  else if level = "high" then 2
  else 3

/-! ## Bureau targeting (`BureauTargetingService`, automation.py) -/

/-- A `bureau_targeting_rules` row, with the `.get` defaults of
`_apply_targeting_rules` / `_calculate_rule_relevance`.  `dispute_types`,
`account_keywords` and `max_avg_disputes` are the `criteria` sub-dict;
`recommended_bureaus` is `none` when the key is absent (defaulted to
`['all']` at use sites). -/
structure TargetingRule where
  name : String := "unknown"
  rule_type : String := ""
  dispute_types : List String := []
  account_keywords : List String := []
  max_avg_disputes : ℚ := 10
  success_history : ℚ := 0
  total_applications : ℚ := 1
  recommended_bureaus : Option (List String) := none
  confidence_score : ℚ := 1/2
deriving DecidableEq

/-- Dispute attributes consumed by the targeting rules.  `dispute_type` is
read with `.get('dispute_type')` (default `None`), hence an `Option`;
`account_name` with `.get('account_name', '')`. -/
structure DisputeFacts where
  dispute_type : Option String := none
  account_name : String := ""
deriving DecidableEq

/-- Client history consumed by `client_history_based` rules. -/
structure ClientHistoryFacts where
  avg_disputes_per_month : ℚ := 0
deriving DecidableEq

/-- `_calculate_rule_relevance`. -/
def calculate_rule_relevance (rule : TargetingRule) (dispute : DisputeFacts)
    (client_history : Option ClientHistoryFacts) : ℚ :=
  let base : ℚ :=
    if rule.rule_type = "dispute_type_based" then
      match dispute.dispute_type with
      | some t => if rule.dispute_types.contains t then 8/10 else 0
      | none => 0
    else if rule.rule_type = "account_based" then
      let account := pyLower dispute.account_name
      if rule.account_keywords.any (fun k => strContains (pyLower k).data account.data) then 6/10
      else 0
    else if rule.rule_type = "client_history_based" then
      match client_history with
      | some h => if h.avg_disputes_per_month < rule.max_avg_disputes then 4/10 else 0
      | none => 0
    else 0
  let success_rate := rule.success_history / max rule.total_applications 1
  min (base + success_rate * (3/10)) 1

/-- Output of `_apply_targeting_rules`. -/
structure BureauRecommendation where
  bureaus : List String
  confidence : ℚ
  rule_name : String
  alternatives : List String
  reasoning : List String
deriving DecidableEq

/-- `_get_alternative_bureaus`. -/
def get_alternative_bureaus (recommended : List String) : List String :=
  let all_bureaus := ["equifax", "experian", "transunion"]
  if recommended.contains "all" then all_bureaus
  else all_bureaus.filter (fun b => ¬ recommended.contains b)

/-- The best-rule scan of `_apply_targeting_rules` (`best_rule`, `best_score`
accumulated with a strict `>` comparison starting from `None`, `0`). -/
def bestRuleScan (dispute : DisputeFacts) (client_history : Option ClientHistoryFacts)
    (rules : List TargetingRule) : Option TargetingRule × ℚ :=
  rules.foldl
    (fun acc rule =>
      let s := calculate_rule_relevance rule dispute client_history
      if acc.2 < s then (some rule, s) else acc)
    (none, 0)

/-- `_apply_targeting_rules`. -/
def apply_targeting_rules (dispute : DisputeFacts) (rules : List TargetingRule)
    (client_history : Option ClientHistoryFacts) : BureauRecommendation :=
  if rules = [] then
    { bureaus := ["all"], confidence := 6/10, rule_name := "default_all_bureaus",
      alternatives := ["equifax", "experian", "transunion"],
      reasoning := ["Default recommendation - target all bureaus"] }
  else
    let scan := bestRuleScan dispute client_history rules
    match scan.1 with
    | none =>
      { bureaus := ["all"], confidence := 1/2, rule_name := "fallback_default",
        alternatives := ["equifax", "experian", "transunion"],
        reasoning := ["No specific rule matched, using safe default"] }
    | some best_rule =>
      if scan.2 < 3/10 then
        { bureaus := ["all"], confidence := 1/2, rule_name := "fallback_default",
          alternatives := ["equifax", "experian", "transunion"],
          reasoning := ["No specific rule matched, using safe default"] }
      else
        { bureaus := best_rule.recommended_bureaus.getD ["all"]
          confidence := best_rule.confidence_score
          rule_name := best_rule.name
          alternatives := get_alternative_bureaus (best_rule.recommended_bureaus.getD ["all"])
          reasoning := ["Applied rule: " ++ best_rule.name] }

/-! ## Round scheduling (`AutomatedSchedulingService`, automation.py) -/

/-- Output of `_apply_default_scheduling`: the day offset of
`scheduled_date` from `datetime.utcnow()` and the reported success
probability. -/
structure DefaultSchedule where
  next_round : ℤ
  delay_days : ℤ
  estimated_success_probability : ℚ
deriving DecidableEq

/-- `_apply_default_scheduling`: progressive delay
`30 + (next_round - 1) * 15` days and probability
`max(0.1, 0.8 - next_round * 0.1)`. -/
def apply_default_scheduling (next_round : ℤ) : DefaultSchedule :=
  { next_round := next_round
    delay_days := 30 + (next_round - 1) * 15
    estimated_success_probability := max (1/10) (8/10 - (next_round : ℚ) * (1/10)) }

/-- `_estimate_success_probability` (the rule-based scheduling path):
round-decayed base times dispute-type and responsiveness modifiers, clamped
to `[0.05, 0.95]`.  `responsiveness` is
`dispute_data.get('client_responsiveness_score', 0.5)`. -/
def estimate_success_probability (dispute_type : String) (responsiveness : ℚ)
    (round_number : ℤ) : ℚ :=
  let base_prob := max (1/10) (7/10 - ((round_number : ℚ) - 1) * (1/10))
  let type_modifiers : List (String × ℚ) :=
    [("inquiry", 11/10), ("late_payment", 9/10), ("collection", 7/10), ("charge_off", 6/10)]
  let modifier := (type_modifiers.lookup dispute_type).getD 1
  let responsiveness_modifier := 8/10 + responsiveness * (4/10)
  max (1/20) (min (19/20) (base_prob * modifier * responsiveness_modifier))

/-! ## Payment retry (`PaymentRetryService`, automation.py) -/

/-- One tier of `amount_tiers`, with the `.get` defaults of
`_get_amount_tier` (`min_amount` 0, `max_amount` absent meaning `inf`,
`strategy` absent deferring to the config, `delay_multiplier` 1.0). -/
structure AmountTier where
  min_amount : ℚ := 0
  max_amount : Option ℚ := none
  strategy : Option String := none
  delay_multiplier : ℚ := 1
deriving DecidableEq

/-- A retry configuration; `amount_tiers` keeps the dict's insertion order. -/
structure RetryConfig where
  strategy : String := "exponential"
  initial_delay_hours : ℚ := 24
  amount_tiers : List (String × AmountTier) := []
deriving DecidableEq

/-- `_create_default_config`'s configuration (low < $100 fixed ×0.5,
medium $100–$500 linear ×1.0, high ≥ $500 exponential ×1.5). -/
def default_retry_config : RetryConfig :=
  { strategy := "exponential"
    initial_delay_hours := 24
    amount_tiers :=
      [("low", { max_amount := some 100, strategy := some "fixed", delay_multiplier := 1/2 }),
       ("medium", { min_amount := 100, max_amount := some 500, strategy := some "linear",
                    delay_multiplier := 1 }),
       ("high", { min_amount := 500, strategy := some "exponential",
                  delay_multiplier := 3/2 })] }

/-- `min_amount <= amount < max_amount` with an absent `max_amount` read as
`float('inf')`. -/
def tierMatches (amount : ℚ) (tier : AmountTier) : Bool :=
  decide (tier.min_amount ≤ amount) &&
    (match tier.max_amount with
      | some m => decide (amount < m)
      | none => true)

/-- `_get_amount_tier`: first matching tier in dict order, else the `medium`
tier, else a literal exponential fallback. -/
def get_amount_tier (amount : ℚ) (amount_tiers : List (String × AmountTier)) : AmountTier :=
  match amount_tiers.find? (fun t => tierMatches amount t.2) with
  | some t => t.2
  | none =>
    match amount_tiers.lookup "medium" with
    | some t => t
    | none => { strategy := some "exponential", delay_multiplier := 1 }

/-- `_estimate_success_rate`: attempt-indexed base rate, strategy modifier,
amount modifier, clamped to `[0.05, 0.95]`. -/
def estimate_success_rate (retry_count : ℕ) (strategy : String) (amount : ℚ) : ℚ :=
  let base_rates : List (ℕ × ℚ) := [(0, 7/10), (1, 1/2), (2, 3/10), (3, 1/5)]
  let base_rate := (base_rates.lookup (min retry_count 3)).getD (1/10)
  let strategy_modifiers : List (String × ℚ) :=
    [("exponential", 9/10), ("linear", 1), ("fixed", 11/10)]
  let strategy_modifier := (strategy_modifiers.lookup strategy).getD 1
  let amount_modifier := max (1/2) (12/10 - amount / 1000)
  max (1/20) (min (19/20) (base_rate * strategy_modifier * amount_modifier))

/-- Output of `_calculate_retry_strategy`; `delay_hours` is the offset of
`next_retry_date` from `datetime.utcnow()`. -/
structure RetryStrategy where
  retry_count : ℕ
  delay_hours : ℚ
  strategy : String
  amount_to_charge : ℤ
  success_rate : ℚ
deriving DecidableEq

/-- `_calculate_retry_strategy` for a failed payment with `retry_count`
prior retries and `amount_cents` cents. -/
def calculate_retry_strategy (retry_count : ℕ) (amount_cents : ℤ) (config : RetryConfig) :
    RetryStrategy :=
  let amount_dollars : ℚ := (amount_cents : ℚ) / 100
  let tier := get_amount_tier amount_dollars config.amount_tiers
  let initial_delay := config.initial_delay_hours
  let strategy := tier.strategy.getD config.strategy
  let multiplier := tier.delay_multiplier
  let delay_hours : ℚ :=
    if strategy = "exponential" then initial_delay * 2 ^ retry_count * multiplier
    else if strategy = "linear" then initial_delay * (retry_count + 1) * multiplier
    else initial_delay * multiplier
  { retry_count := retry_count + 1
    delay_hours := delay_hours
    strategy := strategy
    amount_to_charge := amount_cents
    success_rate := estimate_success_rate retry_count strategy amount_dollars }

/-! ## Dunning sequence (`DunningEmailService`, automation.py)

`process_dunning_sequence` round-trips a `dunning_sequence_states` row
through the database; the embedding passes the state explicitly and reads
the step table and the clock from an environment record.  Times are epoch
seconds. -/

/-- A `dunning_sequences` row: step number, trigger conditions
(`delay_hours`, `min_amount`, each optional) and the email payload fields. -/
structure DunningStep where
  step_number : ℕ
  delay_hours : Option ℤ := none
  min_amount : Option ℚ := none
  email_template_key : String := ""
  is_final : Bool := false
deriving DecidableEq

/-- A `dunning_sequence_states` row for one failed payment. -/
structure DunningState where
  current_step : ℕ
  started_at : ℤ
  last_step_at : Option ℤ := none
deriving DecidableEq

/-- Everything `process_dunning_sequence` reads besides the state: the step
table keyed by `step_number`, the clock, and the failed payment's
`amount_cents`. -/
structure DunningEnv where
  steps : ℕ → Option DunningStep
  now : ℤ
  amount_cents : ℤ

/-- Action component of `process_dunning_sequence`'s result. -/
inductive DunningAction where
  | sequence_complete
  | email_sent (step_number : ℕ)
  | wait
deriving DecidableEq

/-- `_check_time_condition`: elapsed time since `last_step_at` (or since
`started_at` when no step was sent yet) must reach `required_hours`. -/
def check_time_condition (env : DunningEnv) (state : DunningState)
    (required_hours : ℤ) : Bool :=
  let start_time := state.last_step_at.getD state.started_at
  required_hours * 3600 ≤ env.now - start_time

/-- `_should_trigger_step`: the time condition and the minimum-amount
condition, when present, must both hold. -/
def should_trigger_step (env : DunningEnv) (step : DunningStep)
    (state : DunningState) : Bool :=
  (match step.delay_hours with
    | some h => check_time_condition env state h
    | none => true) &&
  (match step.min_amount with
    | some m => ¬((env.amount_cents : ℚ) < m * 100)
    | none => true)

/-- `process_dunning_sequence` for an existing active state: look up step
`current_step + 1`; absent → sequence complete; conditions unmet → wait with
the state unchanged; otherwise send the email and advance the state (the
`_update_sequence_state` write). -/
def process_dunning_sequence (env : DunningEnv) (state : DunningState) :
    DunningAction × DunningState :=
  match env.steps (state.current_step + 1) with
  | none => (DunningAction.sequence_complete, state)
  | some next_step =>
    if should_trigger_step env next_step state then
      (DunningAction.email_sent next_step.step_number,
       { state with current_step := next_step.step_number, last_step_at := some env.now })
    else (DunningAction.wait, state)

/-- Iterated advance calls, each fed the state produced by the previous
call (the environment — clock included — held fixed). -/
def dunningTrace (env : DunningEnv) (state : DunningState) : ℕ → DunningState
  | 0 => state
  | n + 1 => (process_dunning_sequence env (dunningTrace env state n)).2

/-! ## Concrete fixtures used by counterexamples and witnesses -/

/-- A lead record with every field absent. -/
def emptyLead : LeadData := {}

/-- A lead record with all ten important fields present. -/
def fullLead : LeadData :=
  { email := "x", phone := "x", first_name := "x", last_name := "x", street_address := "x",
    city := "x", state := "x", zip_code := "x", utm_source := "x", lead_source := "x" }

/-- A profile with no criteria and the default thresholds 7 / 5 / 3. -/
def emptyProfile : Profile := { criteria := [] }

/-- A criterion of a type `_score_criteria` does not recognise, whose
`threshold_score` exceeds 1. -/
def bogusCriterion : Criterion := { criteria_type := "bogus", weight := 1, threshold_score := 5 }

/-- A profile holding only `bogusCriterion`. -/
def bogusProfile : Profile := { criteria := [bogusCriterion] }

/-- A `credit_concern_level` criterion with weight 1. -/
def concernCriterion : Criterion := { criteria_type := "credit_concern_level", weight := 1 }

/-- A targeting rule that matches `late_payment` disputes but recommends an
explicitly empty bureau list. -/
def emptyBureausRule : TargetingRule :=
  { name := "r", rule_type := "dispute_type_based", dispute_types := ["late_payment"],
    recommended_bureaus := some [], confidence_score := 9/10 }

/-- A targeting rule recommending Equifax only. -/
def equifaxRule : TargetingRule :=
  { name := "eq", rule_type := "dispute_type_based", dispute_types := ["late_payment"],
    recommended_bureaus := some ["equifax"], confidence_score := 9/10 }

/-- A `late_payment` dispute. -/
def latePaymentDispute : DisputeFacts := { dispute_type := some "late_payment" }

/-- A one-step dunning table whose step 1 requires 24 elapsed hours. -/
def oneStepTable : ℕ → Option DunningStep :=
  fun n => if n = 1 then some { step_number := 1, delay_hours := some 24 } else none

/-- A dunning environment at the moment the sequence starts. -/
def dunningEnvAtStart : DunningEnv := { steps := oneStepTable, now := 0, amount_cents := 5000 }

/-- A fresh dunning state started at time 0. -/
def freshDunningState : DunningState := { current_step := 0, started_at := 0 }

/-- A risk factor with weight 1 and impact 0.2. -/
noncomputable def lowRiskFactor : RiskFactor := { weight := 1, impact_score := 1/5 }

/-- A risk factor with weight 1 and impact 0.9. -/
noncomputable def highRiskFactor : RiskFactor := { weight := 1, impact_score := 9/10 }

/-! ## Helper lemmas -/

lemma roundHalfEven_le (y : ℚ) : (roundHalfEven y : ℚ) ≤ y + 1/2 := by
  have hfl : (⌊y⌋ : ℚ) ≤ y := Int.floor_le y
  unfold roundHalfEven
  split_ifs with h1 h2 h3 <;> push_cast <;> linarith

lemma floor_le_roundHalfEven (y : ℚ) : ⌊y⌋ ≤ roundHalfEven y := by
  unfold roundHalfEven
  split_ifs <;> omega

lemma roundHalfEven2_bounds {x : ℚ} (h0 : 0 ≤ x) (h10 : x ≤ 10) :
    0 ≤ roundHalfEven2 x ∧ roundHalfEven2 x ≤ 10 := by
  unfold roundHalfEven2
  constructor
  · have h1 : (0 : ℤ) ≤ ⌊100 * x⌋ := by positivity
    have h2 := floor_le_roundHalfEven (100 * x)
    have : (0 : ℚ) ≤ (roundHalfEven (100 * x) : ℚ) := by exact_mod_cast le_trans h1 h2
    linarith
  · have h1 := roundHalfEven_le (100 * x)
    have h2 : (roundHalfEven (100 * x) : ℚ) ≤ 1000 + 1/2 := by linarith
    have h3 : roundHalfEven (100 * x) ≤ 1000 := by
      have : (roundHalfEven (100 * x) : ℚ) < 1001 := by linarith
      exact_mod_cast Int.lt_add_one_iff.mp (by exact_mod_cast this)
    have : (roundHalfEven (100 * x) : ℚ) ≤ 1000 := by exact_mod_cast h3
    linarith

lemma score_email_domain_bounds (lead : LeadData) (pv nv : List String) :
    0 ≤ (score_email_domain lead pv nv).1 ∧ (score_email_domain lead pv nv).1 ≤ 1 := by
  unfold score_email_domain
  dsimp only
  split_ifs <;> norm_num

lemma score_phone_format_bounds (lead : LeadData) :
    0 ≤ (score_phone_format lead).1 ∧ (score_phone_format lead).1 ≤ 1 := by
  unfold score_phone_format
  dsimp only
  split_ifs <;> norm_num

lemma score_address_validity_bounds (lead : LeadData) :
    0 ≤ (score_address_validity lead).1 ∧ (score_address_validity lead).1 ≤ 1 := by
  unfold score_address_validity
  dsimp only
  have hle : ([lead.street_address, lead.city, lead.state, lead.zip_code].countP
      (fun v => pyStrip v ≠ "")) ≤ 4 := by
    have := List.countP_le_length
      (l := [lead.street_address, lead.city, lead.state, lead.zip_code])
      (p := fun v => decide (pyStrip v ≠ ""))
    simpa using this
  constructor
  · positivity
  · have : (([lead.street_address, lead.city, lead.state, lead.zip_code].countP
        (fun v => pyStrip v ≠ "")) : ℚ) ≤ 4 := by exact_mod_cast hle
    rw [div_le_one (by norm_num)]
    exact this

lemma score_utm_source_bounds (lead : LeadData) (pv nv : List String) :
    0 ≤ (score_utm_source lead pv nv).1 ∧ (score_utm_source lead pv nv).1 ≤ 1 := by
  unfold score_utm_source
  dsimp only
  split_ifs <;> norm_num

lemma score_lead_source_bounds (lead : LeadData) (pv nv : List String) :
    0 ≤ (score_lead_source lead pv nv).1 ∧ (score_lead_source lead pv nv).1 ≤ 1 := by
  unfold score_lead_source
  dsimp only
  split_ifs <;> norm_num

lemma score_name_completeness_bounds (lead : LeadData) :
    0 ≤ (score_name_completeness lead).1 ∧ (score_name_completeness lead).1 ≤ 1 := by
  unfold score_name_completeness
  dsimp only
  split_ifs <;> norm_num

lemma score_credit_concern_level_bounds (lead : LeadData) :
    0 ≤ (score_credit_concern_level lead).1 ∧ (score_credit_concern_level lead).1 ≤ 1 := by
  unfold score_credit_concern_level
  dsimp only
  split_ifs <;> norm_num

lemma score_demographic_fit_bounds (lead : LeadData) :
    0 ≤ (score_demographic_fit lead).1 ∧ (score_demographic_fit lead).1 ≤ 1 := by
  unfold score_demographic_fit
  dsimp only
  split_ifs <;> norm_num

/-- Raw criterion scores stay in `[0, 1]` provided unrecognised criterion
types carry a threshold score in `[0, 1]`. -/
lemma score_criteria_raw_bounds (lead : LeadData) (c : Criterion)
    (ht : c.criteria_type ∉ knownCriteriaTypes → 0 ≤ c.threshold_score ∧ c.threshold_score ≤ 1) :
    0 ≤ (score_criteria lead c).raw_score ∧ (score_criteria lead c).raw_score ≤ 1 := by
  unfold score_criteria
  dsimp only
  split_ifs with h1 h2 h3 h4 h5 h6 h7 h8
  · exact score_email_domain_bounds lead c.positive_values c.negative_values
  · exact score_phone_format_bounds lead
  · exact score_address_validity_bounds lead
  · exact score_utm_source_bounds lead c.positive_values c.negative_values
  · exact score_lead_source_bounds lead c.positive_values c.negative_values
  · exact score_name_completeness_bounds lead
  · exact score_credit_concern_level_bounds lead
  · exact score_demographic_fit_bounds lead
  · exact ht (by simp [knownCriteriaTypes, h1, h2, h3, h4, h5, h6, h7, h8])

/-- The weighted total never exceeds the total weight when raw scores are in
`[0, 1]` and weights are nonnegative. -/
lemma totalRawScore_bounds (lead : LeadData) (cs : List Criterion)
    (h : ∀ c ∈ cs, 0 ≤ c.weight ∧
      (c.criteria_type ∉ knownCriteriaTypes → 0 ≤ c.threshold_score ∧ c.threshold_score ≤ 1)) :
    0 ≤ totalRawScore lead cs ∧ totalRawScore lead cs ≤ maxPossibleScore cs := by
  induction cs with
  | nil => simp [totalRawScore, maxPossibleScore]
  | cons a t ih =>
    have ha := h a (List.mem_cons_self a t)
    have hraw := score_criteria_raw_bounds lead a ha.2
    have hweight := ha.1
    have ht := ih (fun c hc => h c (List.mem_cons_of_mem a hc))
    have hscore : (score_criteria lead a).score = (score_criteria lead a).raw_score * a.weight :=
      rfl
    unfold totalRawScore maxPossibleScore at *
    simp only [List.map_cons, List.sum_cons]
    constructor
    · have : 0 ≤ (score_criteria lead a).score := by
        rw [hscore]; exact mul_nonneg hraw.1 hweight
      linarith
    · have : (score_criteria lead a).score ≤ a.weight := by
        rw [hscore]
        calc (score_criteria lead a).raw_score * a.weight ≤ 1 * a.weight :=
              mul_le_mul_of_nonneg_right hraw.2 hweight
          _ = a.weight := one_mul _
      linarith

/-- The clamp of `_calculate_confidence` alone pins the confidence to
`[0.1, 1]`. -/
lemma calculate_confidence_bounds (lead : LeadData) (scores : List (String × CritScore)) :
    1/10 ≤ calculate_confidence lead scores ∧ calculate_confidence lead scores ≤ 1 := by
  unfold calculate_confidence
  constructor
  · exact le_max_left _ _
  · exact max_le (by norm_num) (min_le_left _ _)

/-! ## Claim C1 -/

/-- Claim C1, counterexample: a profile containing a single criterion of an
unrecognised type with `threshold_score = 5` produces a normalised score of
50, outside `[0, 10]`. -/
theorem C1_counterexample :
    (calculate_lead_score emptyLead bogusProfile).total_score = 50 ∧
    ¬ (calculate_lead_score emptyLead bogusProfile).total_score ≤ 10 := by
  have h1 : totalRawScore emptyLead bogusProfile.criteria = 5 := by
    simp [totalRawScore, score_criteria, bogusProfile, bogusCriterion]
  have h2 : maxPossibleScore bogusProfile.criteria = 1 := by
    simp [maxPossibleScore, bogusProfile, bogusCriterion]
  have h : (calculate_lead_score emptyLead bogusProfile).total_score = 50 := by
    unfold calculate_lead_score
    dsimp only
    rw [h1, h2]
    norm_num [roundHalfEven2, roundHalfEven]
  exact ⟨h, by rw [h]; norm_num⟩

/-- Claim C1, amended: for every lead record the confidence lies in
`[0.1, 1]` for every scoring profile whatsoever; and whenever the profile's
criteria all have nonnegative weights and, when of an unrecognised type, a
threshold score in `[0, 1]`, the normalised score lies in `[0, 10]`. -/
theorem C1_amended (lead : LeadData) (p : Profile) :
    (1/10 ≤ (calculate_lead_score lead p).confidence ∧
      (calculate_lead_score lead p).confidence ≤ 1) ∧
    ((∀ c ∈ p.criteria, 0 ≤ c.weight ∧
        (c.criteria_type ∉ knownCriteriaTypes →
          0 ≤ c.threshold_score ∧ c.threshold_score ≤ 1)) →
      0 ≤ (calculate_lead_score lead p).total_score ∧
        (calculate_lead_score lead p).total_score ≤ 10) := by
  constructor
  · exact calculate_confidence_bounds lead (criteriaScores lead p.criteria)
  · intro h
    have htot := totalRawScore_bounds lead p.criteria h
    have hnorm : 0 ≤ (if 0 < maxPossibleScore p.criteria then
        totalRawScore lead p.criteria / maxPossibleScore p.criteria * 10 else 0) ∧
        (if 0 < maxPossibleScore p.criteria then
        totalRawScore lead p.criteria / maxPossibleScore p.criteria * 10 else 0) ≤ 10 := by
      split_ifs with hpos
      · constructor
        · exact mul_nonneg (div_nonneg htot.1 (le_of_lt hpos)) (by norm_num)
        · have hdiv : totalRawScore lead p.criteria / maxPossibleScore p.criteria ≤ 1 :=
            (div_le_one hpos).mpr htot.2
          nlinarith
      · norm_num
    exact roundHalfEven2_bounds hnorm.1 hnorm.2

/-- Claim C1, witness for the amended theorem at the empty lead and the empty
profile. -/
theorem C1_amended_witness :
    (1/10 ≤ (calculate_lead_score emptyLead emptyProfile).confidence ∧
      (calculate_lead_score emptyLead emptyProfile).confidence ≤ 1) ∧
    (0 ≤ (calculate_lead_score emptyLead emptyProfile).total_score ∧
      (calculate_lead_score emptyLead emptyProfile).total_score ≤ 10) :=
  ⟨(C1_amended emptyLead emptyProfile).1,
   (C1_amended emptyLead emptyProfile).2 (by simp [emptyProfile])⟩

/-! ## Claim C2 -/

lemma pyLower_empty : pyLower "" = "" := rfl

lemma pyStrip_empty : pyStrip "" = "" := rfl

lemma pyUpper_empty : pyUpper "" = "" := rfl

/-- Claim C2, counterexample: scoring a fully populated lead against a profile
with an empty criteria list yields confidence 0.5 (not 0.1) and status
`auto_disqualified` (not `manual_review`). -/
theorem C2_counterexample :
    (calculate_lead_score fullLead emptyProfile).confidence = 1/2 ∧
    ((1 : ℚ)/2 ≠ 1/10) ∧
    determine_qualification_status (calculate_lead_score fullLead emptyProfile).total_score
      (calculate_lead_score fullLead emptyProfile).confidence emptyProfile =
        "auto_disqualified" ∧
    ("auto_disqualified" : String) ≠ "manual_review" := by
  have hcount : (List.countP (fun v => !decide (pyStrip v = "")) (importantFieldValues fullLead))
      = 10 := by decide
  have hconf : (calculate_lead_score fullLead emptyProfile).confidence = 1/2 := by
    unfold calculate_lead_score calculate_confidence
    dsimp only
    norm_num [emptyProfile, criteriaScores, hcount]
  have htot : (calculate_lead_score fullLead emptyProfile).total_score = 0 := by
    unfold calculate_lead_score
    dsimp only
    norm_num [emptyProfile, totalRawScore, maxPossibleScore, roundHalfEven2, roundHalfEven]
  refine ⟨hconf, by norm_num, ?_, by decide⟩
  rw [htot, hconf]
  norm_num [determine_qualification_status, emptyProfile]

/-- Claim C2, amended: with an empty criteria list the normalised score is 0
and no exception is raised, but the confidence is the clamp of half the
important-field completeness ratio (0.1 only when at most two fields are
present), and the qualification status follows the usual threshold cascade —
for the default thresholds 7 / 5 / 3 a score of 0 is `auto_disqualified`,
not `manual_review`. -/
theorem C2_amended (lead : LeadData) (p : Profile) (hc : p.criteria = []) :
    (calculate_lead_score lead p).total_score = 0 ∧
    (calculate_lead_score lead p).confidence =
      max (1/10) (min 1
        (((importantFieldValues lead).countP (fun v => pyStrip v ≠ "") : ℚ) / 20)) ∧
    (p.auto_qualify_threshold = 7 → p.require_review_threshold = 5 →
      p.disqualify_threshold = 3 →
      determine_qualification_status (calculate_lead_score lead p).total_score
        (calculate_lead_score lead p).confidence p = "auto_disqualified") := by
  have htot : (calculate_lead_score lead p).total_score = 0 := by
    unfold calculate_lead_score
    dsimp only
    rw [hc]
    norm_num [totalRawScore, maxPossibleScore, roundHalfEven2, roundHalfEven]
  have hconf : (calculate_lead_score lead p).confidence =
      max (1/10) (min 1
        (((importantFieldValues lead).countP (fun v => pyStrip v ≠ "") : ℚ) / 20)) := by
    unfold calculate_lead_score calculate_confidence
    dsimp only
    rw [hc]
    norm_num [criteriaScores]
    congr 2
    ring
  refine ⟨htot, hconf, ?_⟩
  intro hq hr hd
  rw [htot]
  unfold determine_qualification_status
  dsimp only
  rw [hq, hr, hd]
  rcases lt_or_le (calculate_lead_score lead p).confidence (1/2) with h | h
  · simp only [if_pos h]
    norm_num
  · simp only [if_neg (not_lt.mpr h)]
    norm_num

/-- Claim C2, witness for the amended theorem at the fully populated lead and
the empty default profile. -/
theorem C2_amended_witness :
    (calculate_lead_score fullLead emptyProfile).total_score = 0 ∧
    determine_qualification_status (calculate_lead_score fullLead emptyProfile).total_score
      (calculate_lead_score fullLead emptyProfile).confidence emptyProfile =
        "auto_disqualified" :=
  ⟨(C2_amended fullLead emptyProfile rfl).1,
   (C2_amended fullLead emptyProfile rfl).2.2 rfl rfl rfl⟩

/-! ## Claim C3 -/

/-- Claim C3, counterexample: with thresholds 3 ≤ 5 ≤ 7 and confidence 0.6, a
score of 6 — strictly between the review and qualify thresholds — is
classified `review_required`, not `manual_review`. -/
theorem C3_counterexample :
    determine_qualification_status 6 (6/10) emptyProfile = "review_required" ∧
    ("review_required" : String) ≠ "manual_review" := by
  constructor
  · norm_num [determine_qualification_status, emptyProfile]
  · decide

/-- Claim C3, amended: for an ordered profile and confidence ≥ 0.5,
`auto_disqualified` is returned only when the score is at or below the
disqualify threshold, and every score strictly between the *disqualify* and
*review* thresholds (not between review and qualify) is `manual_review`. -/
theorem C3_amended (score conf : ℚ) (p : Profile)
    (h1 : p.disqualify_threshold ≤ p.require_review_threshold)
    (h2 : p.require_review_threshold ≤ p.auto_qualify_threshold)
    (h3 : 1/2 ≤ conf) :
    (determine_qualification_status score conf p = "auto_disqualified" →
      score ≤ p.disqualify_threshold) ∧
    (p.disqualify_threshold < score → score < p.require_review_threshold →
      determine_qualification_status score conf p = "manual_review") := by
  have hnc : ¬ conf < 1/2 := not_lt.mpr h3
  unfold determine_qualification_status
  dsimp only
  rw [if_neg hnc, if_neg hnc]
  split_ifs with ha hb hc
  · exact ⟨fun h => absurd h (by decide),
      fun hd hr => absurd ha (not_le.mpr (lt_of_lt_of_le hr h2))⟩
  · exact ⟨fun h => absurd h (by decide), fun hd hr => absurd hb (not_le.mpr hr)⟩
  · exact ⟨fun _ => hc, fun hd hr => absurd hc (not_le.mpr hd)⟩
  · exact ⟨fun h => absurd h (by decide), fun _ _ => rfl⟩

/-- Claim C3, witness for the amended theorem at score 4, confidence 0.5 and
the default thresholds. -/
theorem C3_amended_witness :
    (determine_qualification_status 4 (1/2) emptyProfile = "auto_disqualified" →
      (4 : ℚ) ≤ emptyProfile.disqualify_threshold) ∧
    (emptyProfile.disqualify_threshold < 4 → (4 : ℚ) < emptyProfile.require_review_threshold →
      determine_qualification_status 4 (1/2) emptyProfile = "manual_review") :=
  C3_amended 4 (1/2) emptyProfile (by norm_num [emptyProfile]) (by norm_num [emptyProfile])
    (by norm_num)

/-! ## Claim C4 -/

/-- Claim C4, counterexample: for the `credit_concern_level` criterion on a
lead with no concern-level input the evaluator returns the neutral raw score
0.5 — not 0.0 — and an empty reasoning list, with no "not provided" entry. -/
theorem C4_counterexample :
    (score_criteria emptyLead concernCriterion).raw_score = 1/2 ∧
    (score_criteria emptyLead concernCriterion).reasoning = [] ∧
    (1 : ℚ)/2 ≠ 0 := by
  refine ⟨?_, ?_, by norm_num⟩ <;>
    simp [score_criteria, concernCriterion, emptyLead, score_credit_concern_level,
      pyLower_empty, strContains, headMatches]

/-- Claim C4, amended: on missing input the five string-valued criterion types
return 0.0 with an explicit "not provided" reason, and `address_validity`
returns 0.0 with an "Incomplete address provided" reason; but
`credit_concern_level` and `demographic_fit` instead return the neutral raw
score 0.5 (the latter with a "No state information provided" reason, the
former with no reasoning at all).  No case raises. -/
theorem C4_amended :
    (∀ (lead : LeadData) (pv nv : List String) (w t : ℚ), lead.email = "" →
      score_criteria lead ⟨"email_domain", w, pv, nv, t⟩ = ⟨0, 0, w, ["No email provided"]⟩) ∧
    (∀ (lead : LeadData) (pv nv : List String) (w t : ℚ), lead.phone = "" →
      score_criteria lead ⟨"phone_format", w, pv, nv, t⟩ =
        ⟨0, 0, w, ["No phone number provided"]⟩) ∧
    (∀ (lead : LeadData) (pv nv : List String) (w t : ℚ),
      pyStrip lead.street_address = "" → pyStrip lead.city = "" →
      pyStrip lead.state = "" → pyStrip lead.zip_code = "" →
      score_criteria lead ⟨"address_validity", w, pv, nv, t⟩ =
        ⟨0, 0, w, ["Incomplete address provided"]⟩) ∧
    (∀ (lead : LeadData) (pv nv : List String) (w t : ℚ), lead.utm_source = "" →
      score_criteria lead ⟨"utm_source", w, pv, nv, t⟩ =
        ⟨0, 0, w, ["No UTM source provided"]⟩) ∧
    (∀ (lead : LeadData) (pv nv : List String) (w t : ℚ), lead.lead_source = "" →
      score_criteria lead ⟨"lead_source", w, pv, nv, t⟩ =
        ⟨0, 0, w, ["No lead source specified"]⟩) ∧
    (∀ (lead : LeadData) (pv nv : List String) (w t : ℚ),
      pyStrip lead.first_name = "" → pyStrip lead.last_name = "" →
      score_criteria lead ⟨"name_completeness", w, pv, nv, t⟩ =
        ⟨0, 0, w, ["No name provided"]⟩) ∧
    (∀ (lead : LeadData) (pv nv : List String) (w t : ℚ), lead.concern_level = "" →
      score_criteria lead ⟨"credit_concern_level", w, pv, nv, t⟩ = ⟨1/2 * w, 1/2, w, []⟩) ∧
    (∀ (lead : LeadData) (pv nv : List String) (w t : ℚ), lead.state = "" →
      score_criteria lead ⟨"demographic_fit", w, pv, nv, t⟩ =
        ⟨1/2 * w, 1/2, w, ["No state information provided"]⟩) := by
  refine ⟨?_, ?_, ?_, ?_, ?_, ?_, ?_, ?_⟩
  · intro lead pv nv w t h
    simp [score_criteria, score_email_domain, h, pyLower_empty]
  · intro lead pv nv w t h
    simp [score_criteria, score_phone_format, h]
  · intro lead pv nv w t h1 h2 h3 h4
    simp [score_criteria, score_address_validity, List.countP_cons, List.countP_nil,
      h1, h2, h3, h4]
    norm_num
  · intro lead pv nv w t h
    simp [score_criteria, score_utm_source, h, pyLower_empty]
  · intro lead pv nv w t h
    simp [score_criteria, score_lead_source, h, pyLower_empty]
  · intro lead pv nv w t h1 h2
    simp [score_criteria, score_name_completeness, h1, h2]
  · intro lead pv nv w t h
    simp [score_criteria, score_credit_concern_level, h, pyLower_empty, strContains,
      headMatches]
  · intro lead pv nv w t h
    simp [score_criteria, score_demographic_fit, h, pyUpper_empty]

/-- Claim C4, witness for the amended theorem at the empty lead with weight 1
for every criterion type. -/
theorem C4_amended_witness :
    score_criteria emptyLead ⟨"email_domain", 1, [], [], 0⟩ =
      ⟨0, 0, 1, ["No email provided"]⟩ ∧
    score_criteria emptyLead ⟨"phone_format", 1, [], [], 0⟩ =
      ⟨0, 0, 1, ["No phone number provided"]⟩ ∧
    score_criteria emptyLead ⟨"address_validity", 1, [], [], 0⟩ =
      ⟨0, 0, 1, ["Incomplete address provided"]⟩ ∧
    score_criteria emptyLead ⟨"utm_source", 1, [], [], 0⟩ =
      ⟨0, 0, 1, ["No UTM source provided"]⟩ ∧
    score_criteria emptyLead ⟨"lead_source", 1, [], [], 0⟩ =
      ⟨0, 0, 1, ["No lead source specified"]⟩ ∧
    score_criteria emptyLead ⟨"name_completeness", 1, [], [], 0⟩ =
      ⟨0, 0, 1, ["No name provided"]⟩ ∧
    score_criteria emptyLead ⟨"credit_concern_level", 1, [], [], 0⟩ = ⟨1/2 * 1, 1/2, 1, []⟩ ∧
    score_criteria emptyLead ⟨"demographic_fit", 1, [], [], 0⟩ =
      ⟨1/2 * 1, 1/2, 1, ["No state information provided"]⟩ :=
  ⟨C4_amended.1 emptyLead [] [] 1 0 rfl,
   C4_amended.2.1 emptyLead [] [] 1 0 rfl,
   C4_amended.2.2.1 emptyLead [] [] 1 0 rfl rfl rfl rfl,
   C4_amended.2.2.2.1 emptyLead [] [] 1 0 rfl,
   C4_amended.2.2.2.2.1 emptyLead [] [] 1 0 rfl,
   C4_amended.2.2.2.2.2.1 emptyLead [] [] 1 0 rfl rfl,
   C4_amended.2.2.2.2.2.2.1 emptyLead [] [] 1 0 rfl,
   C4_amended.2.2.2.2.2.2.2 emptyLead [] [] 1 0 rfl⟩

/-! ## Claim C5 -/

/-- The logistic transform applied by `_calculate_churn_probability` is
monotone in the normalised risk. -/
lemma churn_sigmoid_mono {r1 r2 : ℝ} (h : r1 ≤ r2) :
    1 / (1 + Real.exp (-6 * (r1 - 1/2))) ≤ 1 / (1 + Real.exp (-6 * (r2 - 1/2))) := by
  have hexp : Real.exp (-6 * (r2 - 1/2)) ≤ Real.exp (-6 * (r1 - 1/2)) :=
    Real.exp_le_exp.mpr (by linarith)
  have hpos : (0 : ℝ) < 1 + Real.exp (-6 * (r2 - 1/2)) := by positivity
  exact one_div_le_one_div_of_le hpos (by linarith)

lemma totalWeight_nil : totalWeight [] = 0 := by simp [totalWeight]

/-- Claim C5: the churn probability always lies in `[0, 1]`, and whenever
two risk-factor lists have well-defined normalised weighted risks (nonzero
total weight), the list with the higher normalised risk never yields a
lower probability. -/
theorem C5_churn_probability_bounds_and_monotone :
    (∀ factors : List RiskFactor,
      0 ≤ calculate_churn_probability factors ∧ calculate_churn_probability factors ≤ 1) ∧
    (∀ f1 f2 : List RiskFactor, totalWeight f1 ≠ 0 → totalWeight f2 ≠ 0 →
      normalizedRisk f1 ≤ normalizedRisk f2 →
      calculate_churn_probability f1 ≤ calculate_churn_probability f2) := by
  constructor
  · intro factors
    unfold calculate_churn_probability
    split_ifs
    · norm_num
    · norm_num
    · constructor
      · exact le_max_left 0 _
      · exact max_le (by norm_num) (min_le_left _ _)
  · intro f1 f2 h1 h2 hr
    have hne1 : f1 ≠ [] := fun h => h1 (h ▸ totalWeight_nil)
    have hne2 : f2 ≠ [] := fun h => h2 (h ▸ totalWeight_nil)
    unfold calculate_churn_probability
    rw [if_neg hne1, if_neg h1, if_neg hne2, if_neg h2]
    exact max_le_max le_rfl (min_le_min le_rfl (churn_sigmoid_mono hr))

/-- Claim C5, witness: the bounds at the empty factor list, and monotonicity
between a weight-1 factor of impact 0.2 and one of impact 0.9. -/
theorem C5_churn_probability_witness :
    (0 ≤ calculate_churn_probability [] ∧ calculate_churn_probability [] ≤ 1) ∧
    calculate_churn_probability [lowRiskFactor] ≤ calculate_churn_probability [highRiskFactor] :=
  ⟨C5_churn_probability_bounds_and_monotone.1 [],
   C5_churn_probability_bounds_and_monotone.2 [lowRiskFactor] [highRiskFactor]
     (by norm_num [totalWeight, lowRiskFactor])
     (by norm_num [totalWeight, highRiskFactor])
     (by norm_num [normalizedRisk, totalWeight, totalWeightedRisk, lowRiskFactor,
        highRiskFactor])⟩

/-! ## Claim C10 -/

/-- Claim C10: the churn risk level is a deterministic function of the
probability with the fixed cut points 0.7 / 0.5 / 0.3, and its rank is
monotone non-decreasing in the probability. -/
theorem C10_risk_level_cutpoints_and_monotone (p : ℚ) (hp0 : 0 ≤ p) (hp1 : p ≤ 1) :
    ((determine_risk_level p = "critical" ↔ 7/10 ≤ p) ∧
     (determine_risk_level p = "high" ↔ 1/2 ≤ p ∧ p < 7/10) ∧
     (determine_risk_level p = "medium" ↔ 3/10 ≤ p ∧ p < 1/2) ∧
     (determine_risk_level p = "low" ↔ p < 3/10)) ∧
    (∀ q : ℚ, 0 ≤ q → q ≤ 1 → p ≤ q →
      riskLevelRank (determine_risk_level p) ≤ riskLevelRank (determine_risk_level q)) := by
  have hrc : riskLevelRank "critical" = 3 := rfl
  have hrh : riskLevelRank "high" = 2 := rfl
  have hrm : riskLevelRank "medium" = 1 := rfl
  have hrl : riskLevelRank "low" = 0 := rfl
  constructor
  · unfold determine_risk_level
    split_ifs with h1 h2 h3
    · exact ⟨⟨fun _ => h1, fun _ => rfl⟩,
        ⟨fun h => absurd h (by decide), fun h => False.elim (by linarith [h.2])⟩,
        ⟨fun h => absurd h (by decide), fun h => False.elim (by linarith [h.2])⟩,
        ⟨fun h => absurd h (by decide), fun h => False.elim (by linarith [h])⟩⟩
    · exact ⟨⟨fun h => absurd h (by decide), fun h => False.elim (h1 h)⟩,
        ⟨fun _ => ⟨h2, not_le.mp h1⟩, fun _ => rfl⟩,
        ⟨fun h => absurd h (by decide), fun h => False.elim (by linarith [h.2])⟩,
        ⟨fun h => absurd h (by decide), fun h => False.elim (by linarith [h])⟩⟩
    · exact ⟨⟨fun h => absurd h (by decide), fun h => False.elim (h1 h)⟩,
        ⟨fun h => absurd h (by decide), fun h => False.elim (h2 h.1)⟩,
        ⟨fun _ => ⟨h3, not_le.mp h2⟩, fun _ => rfl⟩,
        ⟨fun h => absurd h (by decide), fun h => False.elim (by linarith [h])⟩⟩
    · exact ⟨⟨fun h => absurd h (by decide), fun h => False.elim (h1 h)⟩,
        ⟨fun h => absurd h (by decide), fun h => False.elim (h2 h.1)⟩,
        ⟨fun h => absurd h (by decide), fun h => False.elim (h3 h.1)⟩,
        ⟨fun _ => not_le.mp h3, fun _ => rfl⟩⟩
  · intro q hq0 hq1 hpq
    unfold determine_risk_level
    split_ifs <;>
      simp only [hrc, hrh, hrm, hrl] <;>
      first | (exfalso; linarith) | norm_num

/-- Claim C10, witness at probabilities 0.2 and 0.8. -/
theorem C10_risk_level_witness :
    (determine_risk_level (8/10) = "critical" ↔ (7 : ℚ)/10 ≤ 8/10) ∧
    riskLevelRank (determine_risk_level (2/10)) ≤ riskLevelRank (determine_risk_level (8/10)) :=
  ⟨(C10_risk_level_cutpoints_and_monotone (8/10) (by norm_num) (by norm_num)).1.1,
   (C10_risk_level_cutpoints_and_monotone (2/10) (by norm_num) (by norm_num)).2 (8/10)
     (by norm_num) (by norm_num) (by norm_num)⟩

/-! ## Claim C6 -/

/-- The `best_rule` produced by the scan of `_apply_targeting_rules` is one
of the scanned rules. -/
lemma bestRuleScan_aux_mem (d : DisputeFacts) (ch : Option ClientHistoryFacts) :
    ∀ (rules : List TargetingRule) (init : Option TargetingRule × ℚ) (r : TargetingRule),
      (rules.foldl
        (fun acc rule =>
          let s := calculate_rule_relevance rule d ch
          if acc.2 < s then (some rule, s) else acc) init).1 = some r →
      init.1 = some r ∨ r ∈ rules := by
  intro rules
  induction rules with
  | nil =>
    intro init r h
    exact Or.inl h
  | cons a t ih =>
    intro init r h
    simp only [List.foldl_cons] at h
    rcases ih _ r h with h' | h'
    · by_cases hc : init.2 < calculate_rule_relevance a d ch
      · rw [if_pos hc] at h'
        simp only [Option.some.injEq] at h'
        exact Or.inr (h' ▸ List.mem_cons_self a t)
      · rw [if_neg hc] at h'
        exact Or.inl h'
    · exact Or.inr (List.mem_cons_of_mem a h')

lemma bestRuleScan_mem (d : DisputeFacts) (ch : Option ClientHistoryFacts)
    (rules : List TargetingRule) (r : TargetingRule)
    (h : (bestRuleScan d ch rules).1 = some r) : r ∈ rules := by
  unfold bestRuleScan at h
  rcases bestRuleScan_aux_mem d ch rules (none, 0) r h with h' | h'
  · exact absurd h' (by simp)
  · exact h'

/-- Claim C6, counterexample: a matching rule whose `recommended_bureaus`
field is the explicitly empty list makes the recommender return an empty
bureau list. -/
theorem C6_counterexample :
    (apply_targeting_rules latePaymentDispute [emptyBureausRule] none).bureaus = [] := by
  have hrel : calculate_rule_relevance emptyBureausRule latePaymentDispute none = 8/10 := by
    simp only [calculate_rule_relevance, emptyBureausRule, latePaymentDispute]
    norm_num
  unfold apply_targeting_rules bestRuleScan
  simp only [List.foldl_cons, List.foldl_nil, hrel]
  norm_num [emptyBureausRule]

/-- Claim C6, amended: the recommendation is nonempty whenever every active
rule's `recommended_bureaus` value (defaulted to `['all']` when absent) is
nonempty; with zero rules it is exactly the all-bureaus default with
confidence 0.6 ∈ [0.5, 0.7] and an explicit fallback reason. -/
theorem C6_amended (d : DisputeFacts) (rules : List TargetingRule)
    (ch : Option ClientHistoryFacts) :
    (rules = [] →
      apply_targeting_rules d rules ch =
        { bureaus := ["all"], confidence := 6/10, rule_name := "default_all_bureaus",
          alternatives := ["equifax", "experian", "transunion"],
          reasoning := ["Default recommendation - target all bureaus"] } ∧
      (1/2 : ℚ) ≤ 6/10 ∧ (6/10 : ℚ) ≤ 7/10) ∧
    ((∀ r ∈ rules, r.recommended_bureaus.getD ["all"] ≠ []) →
      (apply_targeting_rules d rules ch).bureaus ≠ []) := by
  constructor
  · intro h
    subst h
    exact ⟨by simp [apply_targeting_rules], by norm_num, by norm_num⟩
  · intro hr
    unfold apply_targeting_rules
    split_ifs with he
    · simp
    · rcases hscan : (bestRuleScan d ch rules).1 with _ | br
      · simp [hscan]
      · simp only [hscan]
        split_ifs with hlow
        · simp
        · simpa using hr br (bestRuleScan_mem d ch rules br hscan)

/-- Claim C6, witness: the zero-rule default, and nonemptiness for a
single-rule set recommending Equifax. -/
theorem C6_amended_witness :
    (apply_targeting_rules latePaymentDispute [] none =
      { bureaus := ["all"], confidence := 6/10, rule_name := "default_all_bureaus",
        alternatives := ["equifax", "experian", "transunion"],
        reasoning := ["Default recommendation - target all bureaus"] } ∧
      (1/2 : ℚ) ≤ 6/10 ∧ (6/10 : ℚ) ≤ 7/10) ∧
    (apply_targeting_rules latePaymentDispute [equifaxRule] none).bureaus ≠ [] :=
  ⟨(C6_amended latePaymentDispute [] none).1 rfl,
   (C6_amended latePaymentDispute [equifaxRule] none).2 (by simp [equifaxRule])⟩

/-! ## Claim C7 -/

/-- One advance call never decreases `current_step`. -/
lemma process_dunning_step_le (env : DunningEnv) (s : DunningState)
    (hsteps : ∀ n st, env.steps n = some st → st.step_number = n) :
    s.current_step ≤ (process_dunning_sequence env s).2.current_step := by
  rcases hst : env.steps (s.current_step + 1) with _ | st
  · have heq : process_dunning_sequence env s = (DunningAction.sequence_complete, s) := by
      unfold process_dunning_sequence
      rw [hst]
    rw [heq]
  · have heq : process_dunning_sequence env s =
        (if should_trigger_step env st s then
          (DunningAction.email_sent st.step_number,
           { s with current_step := st.step_number, last_step_at := some env.now })
        else (DunningAction.wait, s)) := by
      unfold process_dunning_sequence
      rw [hst]
    rw [heq]
    have h1 := hsteps _ _ hst
    split_ifs
    · dsimp only
      omega
    · dsimp only
      omega

/-- An email is only ever sent for step `current_step + 1`, and the state
advances exactly to that step. -/
lemma process_dunning_sent (env : DunningEnv) (s : DunningState)
    (hsteps : ∀ n st, env.steps n = some st → st.step_number = n) (n : ℕ)
    (h : (process_dunning_sequence env s).1 = DunningAction.email_sent n) :
    n = s.current_step + 1 ∧ (process_dunning_sequence env s).2.current_step = n := by
  rcases hst : env.steps (s.current_step + 1) with _ | st
  · have heq : process_dunning_sequence env s = (DunningAction.sequence_complete, s) := by
      unfold process_dunning_sequence
      rw [hst]
    rw [heq] at h
    cases h
  · have heq : process_dunning_sequence env s =
        (if should_trigger_step env st s then
          (DunningAction.email_sent st.step_number,
           { s with current_step := st.step_number, last_step_at := some env.now })
        else (DunningAction.wait, s)) := by
      unfold process_dunning_sequence
      rw [hst]
    have h1 := hsteps _ _ hst
    rw [heq] at h ⊢
    split_ifs at h ⊢ with htr
    dsimp only at h ⊢
    simp only [DunningAction.email_sent.injEq] at h
    exact ⟨by omega, by omega⟩

/-- A `wait` outcome leaves the state unchanged. -/
lemma process_dunning_wait (env : DunningEnv) (s : DunningState)
    (h : (process_dunning_sequence env s).1 = DunningAction.wait) :
    (process_dunning_sequence env s).2 = s := by
  rcases hst : env.steps (s.current_step + 1) with _ | st
  · have heq : process_dunning_sequence env s = (DunningAction.sequence_complete, s) := by
      unfold process_dunning_sequence
      rw [hst]
    rw [heq] at h
    cases h
  · have heq : process_dunning_sequence env s =
        (if should_trigger_step env st s then
          (DunningAction.email_sent st.step_number,
           { s with current_step := st.step_number, last_step_at := some env.now })
        else (DunningAction.wait, s)) := by
      unfold process_dunning_sequence
      rw [hst]
    rw [heq] at h ⊢
    split_ifs at h ⊢
    rfl

/-- Claim C7: across iterated advance calls the step never decreases; an
email is only sent for the step immediately after the current one (so a step
advanced past is never re-sent, and step numbers of successive sends are
strictly increasing); and an unmet-conditions `wait` leaves the state
unchanged, so a second call waits again with identical state. -/
theorem C7_dunning_monotone_and_wait_idempotent (env : DunningEnv) (s : DunningState)
    (hsteps : ∀ n st, env.steps n = some st → st.step_number = n) :
    (∀ i j : ℕ, i ≤ j →
      (dunningTrace env s i).current_step ≤ (dunningTrace env s j).current_step) ∧
    (∀ n : ℕ, (process_dunning_sequence env s).1 = DunningAction.email_sent n →
      n = s.current_step + 1 ∧ (process_dunning_sequence env s).2.current_step = n) ∧
    ((process_dunning_sequence env s).1 = DunningAction.wait →
      (process_dunning_sequence env s).2 = s ∧
      process_dunning_sequence env (process_dunning_sequence env s).2 =
        (DunningAction.wait, s)) ∧
    (∀ i j m n : ℕ, i < j →
      (process_dunning_sequence env (dunningTrace env s i)).1 = DunningAction.email_sent m →
      (process_dunning_sequence env (dunningTrace env s j)).1 = DunningAction.email_sent n →
      m < n) := by
  have hmono : Monotone fun i => (dunningTrace env s i).current_step :=
    monotone_nat_of_le_succ fun n => process_dunning_step_le env (dunningTrace env s n) hsteps
  refine ⟨fun i j h => hmono h, fun n h => process_dunning_sent env s hsteps n h, ?_, ?_⟩
  · intro hw
    have hst := process_dunning_wait env s hw
    refine ⟨hst, ?_⟩
    rw [hst]
    exact Prod.ext hw hst
  · intro i j m n hij hi hj
    have hmi := process_dunning_sent env (dunningTrace env s i) hsteps m hi
    have hmj := process_dunning_sent env (dunningTrace env s j) hsteps n hj
    have htr : (dunningTrace env s (i + 1)).current_step = m := hmi.2
    have hle : (dunningTrace env s (i + 1)).current_step ≤
        (dunningTrace env s j).current_step := hmono hij
    omega

/-- Claim C7, witness at a one-step table whose delay has not yet elapsed. -/
theorem C7_dunning_witness :
    (dunningTrace dunningEnvAtStart freshDunningState 0).current_step ≤
      (dunningTrace dunningEnvAtStart freshDunningState 1).current_step ∧
    (process_dunning_sequence dunningEnvAtStart freshDunningState).2 = freshDunningState ∧
    process_dunning_sequence dunningEnvAtStart
        (process_dunning_sequence dunningEnvAtStart freshDunningState).2 =
      (DunningAction.wait, freshDunningState) := by
  have hsteps : ∀ n st, dunningEnvAtStart.steps n = some st → st.step_number = n := by
    intro n st h
    simp only [dunningEnvAtStart, oneStepTable] at h
    split_ifs at h with hn
    simp only [Option.some.injEq] at h
    subst hn
    rw [← h]
  have h := C7_dunning_monotone_and_wait_idempotent dunningEnvAtStart freshDunningState hsteps
  have hw : (process_dunning_sequence dunningEnvAtStart freshDunningState).1 =
      DunningAction.wait := by decide
  exact ⟨h.1 0 1 (by norm_num), (h.2.2.1 hw).1, (h.2.2.1 hw).2⟩

/-! ## Claim C8 -/

/-- The low tier of the default retry configuration is selected for a $50
payment. -/
lemma get_amount_tier_50 :
    get_amount_tier (((5000 : ℤ) : ℚ) / 100) default_retry_config.amount_tiers =
      { max_amount := some 100, strategy := some "fixed", delay_multiplier := 1/2 } := by
  have hm : tierMatches (((5000 : ℤ) : ℚ) / 100)
      ({ max_amount := some 100, strategy := some "fixed",
         delay_multiplier := 1/2 } : AmountTier) = true := by
    simp only [tierMatches]
    norm_num
  unfold get_amount_tier default_retry_config
  dsimp only
  simp only [List.find?]
  rw [hm]

/-- Claim C8, counterexample: the $50 / attempt-0 retry under the default
configuration has estimated success rate 0.8855 = 0.7 × 1.1 × 1.15 — the low
tier overrides the strategy to `fixed` (modifier 1.1) — which differs from
the claimed 0.7 × 0.9 × 1.15 (exponential modifier). -/
theorem C8_counterexample :
    (calculate_retry_strategy 0 5000 default_retry_config).success_rate = 8855/10000 ∧
    (8855/10000 : ℚ) ≠
      max (1/20) (min (19/20) ((7/10) * (9/10) * max (1/2) (12/10 - 50/1000))) := by
  constructor
  · unfold calculate_retry_strategy
    dsimp only
    rw [get_amount_tier_50]
    simp [estimate_success_rate, List.lookup]
    norm_num
  · norm_num

/-- Claim C8, amended: the next retry is exactly 12 hours out (24 × 0.5 via
the low tier), but the strategy actually applied is the tier's `fixed`, so
the estimated success rate is 0.7 × 1.1 × max(0.5, 1.2 − 50/1000) = 0.8855,
clamped to `[0.05, 0.95]` (unchanged). -/
theorem C8_amended :
    (calculate_retry_strategy 0 5000 default_retry_config).delay_hours = 12 ∧
    (calculate_retry_strategy 0 5000 default_retry_config).strategy = "fixed" ∧
    (calculate_retry_strategy 0 5000 default_retry_config).success_rate =
      max (1/20) (min (19/20) ((7/10) * (11/10) * max (1/2) (12/10 - 50/1000))) ∧
    (calculate_retry_strategy 0 5000 default_retry_config).retry_count = 1 := by
  refine ⟨?_, ?_, ?_, rfl⟩
  · unfold calculate_retry_strategy
    dsimp only
    rw [get_amount_tier_50]
    norm_num [default_retry_config]
  · unfold calculate_retry_strategy
    dsimp only
    rw [get_amount_tier_50]
    simp [default_retry_config]
  · unfold calculate_retry_strategy
    dsimp only
    rw [get_amount_tier_50]
    simp [estimate_success_rate, List.lookup]
    norm_num

/-! ## Claim C9 -/

/-- Claim C9, counterexample: scheduling round 2 of a `collection` dispute
with responsiveness 0.5 and no rule reports probability 0.6, whereas the
claimed modifier formula gives 0.42. -/
theorem C9_counterexample :
    (apply_default_scheduling 2).estimated_success_probability = 3/5 ∧
    estimate_success_probability "collection" (1/2) 2 = 21/50 ∧
    (3/5 : ℚ) ≠ 21/50 := by
  refine ⟨?_, ?_, by norm_num⟩
  · simp only [apply_default_scheduling]
    norm_num
  · simp [estimate_success_probability, List.lookup]
    norm_num

/-- Claim C9, amended: with no scheduling rule the round is scheduled
`30 + 15 × (next_round − 1)` days out, and the reported success probability
is `max(0.1, 0.7 − 0.1 × (next_round − 1))` with *no* dispute-type or
responsiveness modifier and no `[0.05, 0.95]` clamp (those apply only on the
rule-based path). -/
theorem C9_amended (next_round : ℤ) :
    (apply_default_scheduling next_round).delay_days = 30 + 15 * (next_round - 1) ∧
    (apply_default_scheduling next_round).estimated_success_probability =
      max (1/10) (7/10 - ((next_round : ℚ) - 1) * (1/10)) := by
  constructor
  · simp only [apply_default_scheduling]
    ring
  · simp only [apply_default_scheduling]
    congr 1
    ring

end Spec2Proof
